import Mathlib

/-!
Verification of the resilient browser-action driver and workflow task of
src/main.py (classes PlaywrightDriver and SauceDemoTask), via a shallow
embedding: each driver operation is a pure function of an oracle that
describes how the underlying Playwright page primitives behave on each
attempt, and returns its result together with a trace of observable events
(attempts, screenshots, pauses).  A result of Except.error models an
exception escaping the driver operation to its caller.
-/

namespace SauceDemo

/-- Exceptions raised by the underlying Playwright primitives: the dedicated
timeout error imported by the script (PlaywrightTimeout), or any other
exception carrying a message. -/
inductive PExc where
  | timeout
  | other (msg : String)
deriving DecidableEq

/-- Observable events of one driver operation: an underlying attempt
(numbered from 1), a screenshot request with its label, or a pause of the
given number of seconds.  The pause constructor exists so that the absence
of pauses in the translated code is a provable statement about the source,
not an artifact of the model. -/
inductive Ev where
  | attempt (k : Nat)
  | screenshot (label : String)
  | sleep (seconds : Nat)
deriving DecidableEq

/-- Outcome of the body of one try-block attempt (the wait_for_selector call
plus the action on the element): it either completes or raises. -/
inductive ActOutcome where
  | ok
  | raise (e : PExc)
deriving DecidableEq

/-- Outcome of one get_text attempt: the text_content result (which
Playwright reports as an optional string) or a raised exception. -/
inductive TextOutcome where
  | ok (t : Option String)
  | raise (e : PExc)
deriving DecidableEq

/-- Result of page.goto: a response carrying its HTTP status, or a raised
exception (network error, load timeout). -/
inductive GotoOutcome where
  | response (status : Nat)
  | raise (e : PExc)
deriving DecidableEq

/-- Behaviour of the underlying page for each attempt index (0-based). -/
abbrev Oracle := Nat → ActOutcome

/-- Behaviour of the underlying page for each get_text attempt index. -/
abbrev TextOracle := Nat → TextOutcome

/-- Event classifier: is the event an underlying attempt. -/
def isAttemptEv : Ev → Bool
  | Ev.attempt _ => true
  | _ => false

/-- Event classifier: is the event a screenshot capture. -/
def isScreenshotEv : Ev → Bool
  | Ev.screenshot _ => true
  | _ => false

/-- Event classifier: is the event a pause. -/
def isSleepEv : Ev → Bool
  | Ev.sleep _ => true
  | _ => false

/-- Number of underlying attempts recorded in a trace. -/
def attemptCount (tr : List Ev) : Nat := (tr.filter isAttemptEv).length

/-- Number of screenshots recorded in a trace. -/
def screenshotCount (tr : List Ev) : Nat := (tr.filter isScreenshotEv).length

/-- Number of pauses recorded in a trace. -/
def sleepCount (tr : List Ev) : Nat := (tr.filter isSleepEv).length

/-- Trace of an operation result (empty for a propagated exception, whose
partial trace no claim needs). -/
def traceOf {α : Type} : Except PExc (α × List Ev) → List Ev
  | Except.ok (_, tr) => tr
  | Except.error _ => []

/-- Returned value of an operation result, when no exception propagated. -/
def resOf {α : Type} : Except PExc (α × List Ev) → Option α
  | Except.ok (a, _) => some a
  | Except.error _ => none

/-- Does the operation let an exception escape to its caller. -/
def raisesToCaller {α : Type} : Except PExc α → Bool
  | Except.ok _ => false
  | Except.error _ => true

/-- Filename built by PlaywrightDriver._take_screenshot (main.py lines
135-142): the label is interpolated verbatim between the fixed start and
the timestamp; the source applies no character replacement and no length
cap to the label. -/
def screenshotFilename (name ts : String) : String :=
  "screenshot_" ++ name ++ "_" ++ ts ++ ".png"

/-- Character allowed by the sanitization rule stated in the spec:
A-Z, a-z, 0-9, underscore, dot, dash. -/
def specAllowedChar (c : Char) : Bool :=
  c.isAlpha || c.isDigit || c == '_' || c == '.' || c == '-'

/-- Sanitization map stated in the spec (not present in the source): keep an
allowed character, replace every other character by an underscore. -/
def specSanitizeChar (c : Char) : Char :=
  if specAllowedChar c then c else '_'

/-- Screenshot filename as the words of the spec describe it (not the
source): sanitize the label, truncate it to 120 characters, then append the
timestamp.  Kept for comparison with screenshotFilename. -/
def specScreenshotFilename (name ts : String) : String :=
  "screenshot_" ++ String.mk ((name.data.map specSanitizeChar).take 120)
    ++ "_" ++ ts ++ ".png"

/-- PlaywrightDriver.navigate (main.py lines 55-65): a single page.goto call
inside try/except Exception.  The goto response status is never inspected:
True is returned whenever goto does not raise; on a raise, a screenshot
labelled navigation_error is taken and False is returned. -/
def navigate (g : GotoOutcome) : Except PExc (Bool × List Ev) :=
  match g with
  | GotoOutcome.response _ => Except.ok (true, [Ev.attempt 1])
  | GotoOutcome.raise _ =>
      Except.ok (false, [Ev.attempt 1, Ev.screenshot "navigation_error"])

/-- The label click builds for its timeout screenshot (main.py line 79):
the selector with every occurrence of the hash sign and of the dot removed. -/
def stripSel (s : String) : String := (s.replace "#" "").replace "." ""

/-- PlaywrightDriver.wait_for_selector (main.py lines 124-133): a single
wait inside try with a handler for PlaywrightTimeout only.  A timeout gives
a screenshot labelled wait_timeout and False; any other raised exception
has no matching handler and propagates to the caller. -/
def wait_for_selector (w : ActOutcome) : Except PExc (Bool × List Ev) :=
  match w with
  | ActOutcome.ok => Except.ok (true, [Ev.attempt 1])
  | ActOutcome.raise PExc.timeout =>
      Except.ok (false, [Ev.attempt 1, Ev.screenshot "wait_timeout"])
  | ActOutcome.raise (PExc.other m) => Except.error (PExc.other m)

/-- Retry loop of PlaywrightDriver.click (main.py lines 67-84), indexed by
the number of iterations the for-loop still has and the current 0-based
attempt index (the top-level call starts with remaining = retry and
attempt = 0, so attempt + remaining = retry throughout).  Each iteration
consults the oracle: no exception returns True at once; a PlaywrightTimeout
or any other exception is caught, a screenshot is taken when the attempt is
the last one (attempt = retry - 1, with the timeout and generic labels of
the source), and the loop moves on with no pause; an exhausted loop returns
False. -/
def clickGo (o : Oracle) (sel : String) (retry : Nat) :
    Nat → Nat → Except PExc (Bool × List Ev)
  | 0, _ => Except.ok (false, [])
  | remaining + 1, attempt =>
    match o attempt with
    | ActOutcome.ok => Except.ok (true, [Ev.attempt (attempt + 1)])
    | ActOutcome.raise PExc.timeout =>
      match clickGo o sel retry remaining (attempt + 1) with
      | Except.ok (b, tr) =>
          Except.ok (b, Ev.attempt (attempt + 1) ::
            (if attempt = retry - 1
              then [Ev.screenshot ("click_timeout_" ++ stripSel sel)]
              else []) ++ tr)
      | Except.error e => Except.error e
    | ActOutcome.raise (PExc.other _) =>
      match clickGo o sel retry remaining (attempt + 1) with
      | Except.ok (b, tr) =>
          Except.ok (b, Ev.attempt (attempt + 1) ::
            (if attempt = retry - 1 then [Ev.screenshot "click_error"]
              else []) ++ tr)
      | Except.error e => Except.error e

/-- PlaywrightDriver.click (main.py lines 67-84): run the retry loop for
retry iterations starting at attempt index 0. -/
def click (o : Oracle) (sel : String) (retry : Nat) :
    Except PExc (Bool × List Ev) :=
  clickGo o sel retry retry 0

/-- Retry loop of PlaywrightDriver.type_text (main.py lines 86-103): same
shape as the click loop, with screenshot labels type_timeout and
type_error, and no pause between attempts. -/
def typeTextGo (o : Oracle) (sel txt : String) (retry : Nat) :
    Nat → Nat → Except PExc (Bool × List Ev)
  | 0, _ => Except.ok (false, [])
  | remaining + 1, attempt =>
    match o attempt with
    | ActOutcome.ok => Except.ok (true, [Ev.attempt (attempt + 1)])
    | ActOutcome.raise PExc.timeout =>
      match typeTextGo o sel txt retry remaining (attempt + 1) with
      | Except.ok (b, tr) =>
          Except.ok (b, Ev.attempt (attempt + 1) ::
            (if attempt = retry - 1 then [Ev.screenshot "type_timeout"]
              else []) ++ tr)
      | Except.error e => Except.error e
    | ActOutcome.raise (PExc.other _) =>
      match typeTextGo o sel txt retry remaining (attempt + 1) with
      | Except.ok (b, tr) =>
          Except.ok (b, Ev.attempt (attempt + 1) ::
            (if attempt = retry - 1 then [Ev.screenshot "type_error"]
              else []) ++ tr)
      | Except.error e => Except.error e

/-- PlaywrightDriver.type_text (main.py lines 86-103). -/
def type_text (o : Oracle) (sel txt : String) (retry : Nat) :
    Except PExc (Bool × List Ev) :=
  typeTextGo o sel txt retry retry 0

/-- Retry loop of PlaywrightDriver.get_text (main.py lines 105-122): same
shape as the click loop, but a completed attempt returns the text_content
result at once (the source returns it even when Playwright reports None),
the screenshot labels are get_text_timeout and get_text_error, and an
exhausted loop returns None. -/
def getTextGo (t : TextOracle) (sel : String) (retry : Nat) :
    Nat → Nat → Except PExc (Option String × List Ev)
  | 0, _ => Except.ok (none, [])
  | remaining + 1, attempt =>
    match t attempt with
    | TextOutcome.ok s => Except.ok (s, [Ev.attempt (attempt + 1)])
    | TextOutcome.raise PExc.timeout =>
      match getTextGo t sel retry remaining (attempt + 1) with
      | Except.ok (r, tr) =>
          Except.ok (r, Ev.attempt (attempt + 1) ::
            (if attempt = retry - 1 then [Ev.screenshot "get_text_timeout"]
              else []) ++ tr)
      | Except.error e => Except.error e
    | TextOutcome.raise (PExc.other _) =>
      match getTextGo t sel retry remaining (attempt + 1) with
      | Except.ok (r, tr) =>
          Except.ok (r, Ev.attempt (attempt + 1) ::
            (if attempt = retry - 1 then [Ev.screenshot "get_text_error"]
              else []) ++ tr)
      | Except.error e => Except.error e

/-- PlaywrightDriver.get_text (main.py lines 105-122). -/
def get_text (t : TextOracle) (sel : String) (retry : Nat) :
    Except PExc (Option String × List Ev) :=
  getTextGo t sel retry retry 0

/-- One scanned .inventory_item as SauceDemoTask._get_product_price sees it:
the outer Option says whether query_selector found the name or price
sub-element, the inner Option is the text_content result of that element. -/
structure Item where
  nameElem : Option (Option String)
  priceElem : Option (Option String)
deriving DecidableEq

/-- Scan of SauceDemoTask._get_product_price (main.py lines 213-237) over
the queried items: for each item, when the name element is present and its
text equals the product name, the price element is queried; when the price
element is present its text is returned at once (even when that text is
None); in every other case, including a matching item whose price element
is absent, the loop moves to the next item; a finished scan returns None. -/
def getProductPrice : List Item → String → Option String
  | [], _ => none
  | item :: rest, pn =>
    match item.nameElem with
    | some nameText =>
      if nameText = some pn then
        match item.priceElem with
        | some priceText => priceText
        | none => getProductPrice rest pn
      else getProductPrice rest pn
    | none => getProductPrice rest pn

/-- Lookup as the words of the claim describe it (not the source): the price
text of the first item whose name text equals the target, with an absent
price element reported as not-found.  Kept for comparison with
getProductPrice. -/
def specFirstMatchLookup (items : List Item) (pn : String) : Option String :=
  match items.find? (fun it => it.nameElem = some (some pn)) with
  | some it => (it.priceElem).getD none
  | none => none

/-- Characterization of what the source actually computes: the price text of
the first item whose name text equals the target and whose price element is
present. -/
def firstPricedMatch (items : List Item) (pn : String) : Option String :=
  match items.find?
      (fun it => decide (it.nameElem = some (some pn)) && (it.priceElem).isSome) with
  | some it => (it.priceElem).getD none
  | none => none

/-- The structured outcome SauceDemoTask.execute builds: success flag,
message, and the data mapping represented as an association list. -/
structure WorkflowOutcome where
  success : Bool
  message : String
  data : List (String × String)
deriving DecidableEq

/-- Results of the three workflow steps of SauceDemoTask.execute as the
driver reports them: the navigate return value, the _login return value,
and the _get_product_price return value. -/
structure ExecEnv where
  navOk : Bool
  loginOk : Bool
  price : Option String
deriving DecidableEq

/-- Python truthiness of an optional string, as the source tests the price
with a bare if: None and the empty string are falsy. -/
def pyTruthy : Option String → Bool
  | none => false
  | some s => s != ""

/-- SauceDemoTask.execute (main.py lines 152-187): start from a failure
record with empty message and data; return early with the navigation or
login message when the corresponding step reports failure; otherwise test
the price for truthiness and build either the success record carrying the
product name and price, or the product-not-found failure record. -/
def execute (env : ExecEnv) : WorkflowOutcome :=
  if env.navOk = false then
    ⟨false, "Failed to navigate to website", []⟩
  else if env.loginOk = false then
    ⟨false, "Login failed", []⟩
  else if pyTruthy env.price = true then
    ⟨true, "Successfully found product: Sauce Labs Backpack",
      [("product", "Sauce Labs Backpack"), ("price", (env.price).getD "")]⟩
  else
    ⟨false, "Failed to find product: Sauce Labs Backpack", []⟩

/-- Lifecycle events of one driver session: the four acquisitions of
PlaywrightDriver.__enter__ (engine start, browser launch, context creation,
page creation with its default timeout) and the three releases of
PlaywrightDriver.__exit__. -/
inductive ResEv where
  | started
  | launched
  | contextOpened
  | pageOpened
  | contextClosed
  | browserClosed
  | engineStopped
deriving DecidableEq

/-- Which acquisition steps of __enter__ complete without raising. -/
structure EnterEnv where
  startOk : Bool
  launchOk : Bool
  contextOk : Bool
  pageOk : Bool
deriving DecidableEq

/-- Which release steps of __exit__ complete without raising. -/
structure ExitEnv where
  contextCloseOk : Bool
  browserCloseOk : Bool
  stopOk : Bool
deriving DecidableEq

/-- PlaywrightDriver.__enter__ (main.py lines 35-43): start the engine,
launch the browser, open a context, open a page, in order, stopping at the
first step that raises.  Returns the acquisition events that happened and
whether entry completed. -/
def enterDriver (env : EnterEnv) : List ResEv × Bool :=
  if env.startOk = false then ([], false)
  else if env.launchOk = false then ([ResEv.started], false)
  else if env.contextOk = false then ([ResEv.started, ResEv.launched], false)
  else if env.pageOk = false then
    ([ResEv.started, ResEv.launched, ResEv.contextOpened], false)
  else
    ([ResEv.started, ResEv.launched, ResEv.contextOpened, ResEv.pageOpened],
      true)

/-- PlaywrightDriver.__exit__ (main.py lines 45-53): close the context,
close the browser, stop the engine, each behind a truthiness guard but with
no try/finally, so a close that raises skips the remaining releases.
Returns the release events that happened and whether exit completed. -/
def exitDriver (env : ExitEnv) : List ResEv × Bool :=
  if env.contextCloseOk = false then ([], false)
  else if env.browserCloseOk = false then ([ResEv.contextClosed], false)
  else if env.stopOk = false then
    ([ResEv.contextClosed, ResEv.browserClosed], false)
  else
    ([ResEv.contextClosed, ResEv.browserClosed, ResEv.engineStopped], true)

/-- The with-statement protocol applied to PlaywrightDriver: run __enter__;
only when __enter__ completes does the with-statement register the manager
and invoke __exit__ on leaving the block (an exception inside __enter__
itself propagates before __exit__ is registered, so nothing is released). -/
def withDriver (een : EnterEnv) (eex : ExitEnv) : List ResEv :=
  match enterDriver een with
  | (acq, true) => acq ++ (exitDriver eex).1
  | (acq, false) => acq

@[simp] theorem attemptCount_nil : attemptCount [] = 0 := rfl

@[simp] theorem attemptCount_cons_attempt (k : Nat) (l : List Ev) :
    attemptCount (Ev.attempt k :: l) = attemptCount l + 1 := by
  simp [attemptCount, List.filter, isAttemptEv]

@[simp] theorem attemptCount_cons_screenshot (s : String) (l : List Ev) :
    attemptCount (Ev.screenshot s :: l) = attemptCount l := by
  simp [attemptCount, List.filter, isAttemptEv]

@[simp] theorem attemptCount_append (a b : List Ev) :
    attemptCount (a ++ b) = attemptCount a + attemptCount b := by
  simp [attemptCount, List.filter_append]

@[simp] theorem screenshotCount_nil : screenshotCount [] = 0 := rfl

@[simp] theorem screenshotCount_cons_attempt (k : Nat) (l : List Ev) :
    screenshotCount (Ev.attempt k :: l) = screenshotCount l := by
  simp [screenshotCount, List.filter, isScreenshotEv]

@[simp] theorem screenshotCount_cons_screenshot (s : String) (l : List Ev) :
    screenshotCount (Ev.screenshot s :: l) = screenshotCount l + 1 := by
  simp [screenshotCount, List.filter, isScreenshotEv]

@[simp] theorem screenshotCount_append (a b : List Ev) :
    screenshotCount (a ++ b) = screenshotCount a + screenshotCount b := by
  simp [screenshotCount, List.filter_append]

@[simp] theorem sleepCount_nil : sleepCount [] = 0 := rfl

@[simp] theorem sleepCount_cons_attempt (k : Nat) (l : List Ev) :
    sleepCount (Ev.attempt k :: l) = sleepCount l := by
  simp [sleepCount, List.filter, isSleepEv]

@[simp] theorem sleepCount_cons_screenshot (s : String) (l : List Ev) :
    sleepCount (Ev.screenshot s :: l) = sleepCount l := by
  simp [sleepCount, List.filter, isSleepEv]

@[simp] theorem sleepCount_append (a b : List Ev) :
    sleepCount (a ++ b) = sleepCount a + sleepCount b := by
  simp [sleepCount, List.filter_append]

/-- The click loop always returns (its two handlers cover every exception)
and its trace never records a pause. -/
theorem clickGo_shape (o : Oracle) (sel : String) (N : Nat) :
    ∀ rem att, ∃ b tr, clickGo o sel N rem att = Except.ok (b, tr)
      ∧ sleepCount tr = 0 := by
  intro rem
  induction rem with
  | zero => intro att; exact ⟨false, [], rfl, rfl⟩
  | succ n ih =>
    intro att
    obtain ⟨b, tr, hrec, hs⟩ := ih (att + 1)
    cases hoa : o att with
    | ok => exact ⟨true, [Ev.attempt (att + 1)], by simp [clickGo, hoa], rfl⟩
    | raise e =>
      cases e with
      | timeout =>
        refine ⟨b, Ev.attempt (att + 1) ::
          (if att = N - 1
            then [Ev.screenshot ("click_timeout_" ++ stripSel sel)]
            else []) ++ tr, ?_, ?_⟩
        · simp [clickGo, hoa, hrec]
        · by_cases hl : att = N - 1 <;> simp [hl, hs]
      | other m =>
        refine ⟨b, Ev.attempt (att + 1) ::
          (if att = N - 1 then [Ev.screenshot "click_error"] else []) ++ tr,
          ?_, ?_⟩
        · simp [clickGo, hoa, hrec]
        · by_cases hl : att = N - 1 <;> simp [hl, hs]

/-- The type_text loop always returns and its trace never records a pause. -/
theorem typeTextGo_shape (o : Oracle) (sel txt : String) (N : Nat) :
    ∀ rem att, ∃ b tr, typeTextGo o sel txt N rem att = Except.ok (b, tr)
      ∧ sleepCount tr = 0 := by
  intro rem
  induction rem with
  | zero => intro att; exact ⟨false, [], rfl, rfl⟩
  | succ n ih =>
    intro att
    obtain ⟨b, tr, hrec, hs⟩ := ih (att + 1)
    cases hoa : o att with
    | ok =>
      exact ⟨true, [Ev.attempt (att + 1)], by simp [typeTextGo, hoa], rfl⟩
    | raise e =>
      cases e with
      | timeout =>
        refine ⟨b, Ev.attempt (att + 1) ::
          (if att = N - 1 then [Ev.screenshot "type_timeout"] else []) ++ tr,
          ?_, ?_⟩
        · simp [typeTextGo, hoa, hrec]
        · by_cases hl : att = N - 1 <;> simp [hl, hs]
      | other m =>
        refine ⟨b, Ev.attempt (att + 1) ::
          (if att = N - 1 then [Ev.screenshot "type_error"] else []) ++ tr,
          ?_, ?_⟩
        · simp [typeTextGo, hoa, hrec]
        · by_cases hl : att = N - 1 <;> simp [hl, hs]

/-- The get_text loop always returns and its trace never records a pause. -/
theorem getTextGo_shape (t : TextOracle) (sel : String) (N : Nat) :
    ∀ rem att, ∃ r tr, getTextGo t sel N rem att = Except.ok (r, tr)
      ∧ sleepCount tr = 0 := by
  intro rem
  induction rem with
  | zero => intro att; exact ⟨none, [], rfl, rfl⟩
  | succ n ih =>
    intro att
    obtain ⟨r, tr, hrec, hs⟩ := ih (att + 1)
    cases hoa : t att with
    | ok s =>
      exact ⟨s, [Ev.attempt (att + 1)], by simp [getTextGo, hoa], rfl⟩
    | raise e =>
      cases e with
      | timeout =>
        refine ⟨r, Ev.attempt (att + 1) ::
          (if att = N - 1 then [Ev.screenshot "get_text_timeout"] else [])
            ++ tr, ?_, ?_⟩
        · simp [getTextGo, hoa, hrec]
        · by_cases hl : att = N - 1 <;> simp [hl, hs]
      | other m =>
        refine ⟨r, Ev.attempt (att + 1) ::
          (if att = N - 1 then [Ev.screenshot "get_text_error"] else [])
            ++ tr, ?_, ?_⟩
        · simp [getTextGo, hoa, hrec]
        · by_cases hl : att = N - 1 <;> simp [hl, hs]

/-- When the underlying action first completes at 0-based index j, the click
loop returns True with j + 1 - att attempts and no screenshot. -/
theorem clickGo_success (o : Oracle) (sel : String) (N : Nat) :
    ∀ rem att j, att + rem = N → att ≤ j → j < N → o j = ActOutcome.ok →
      (∀ i, att ≤ i → i < j → o i ≠ ActOutcome.ok) →
      ∃ tr, clickGo o sel N rem att = Except.ok (true, tr)
        ∧ attemptCount tr = j + 1 - att ∧ screenshotCount tr = 0 := by
  intro rem
  induction rem with
  | zero => intro att j h1 h2 h3 _ _; omega
  | succ n ih =>
    intro att j h1 h2 h3 hok hfail
    rcases Nat.eq_or_lt_of_le h2 with heq | hlt
    · refine ⟨[Ev.attempt (att + 1)], ?_, ?_, ?_⟩
      · simp [clickGo, heq ▸ hok]
      · simp; omega
      · simp
    · have hne : o att ≠ ActOutcome.ok := hfail att le_rfl hlt
      have hlast : ¬ att = N - 1 := by omega
      obtain ⟨tr, hrec, ha, hs⟩ := ih (att + 1) j (by omega) hlt h3 hok
        (fun i hi1 hi2 => hfail i (by omega) hi2)
      cases hoa : o att with
      | ok => exact absurd hoa hne
      | raise e =>
        cases e with
        | timeout =>
          refine ⟨Ev.attempt (att + 1) :: tr, ?_, ?_, ?_⟩
          · simp [clickGo, hoa, hrec, hlast]
          · simp [ha]; omega
          · simp [hs]
        | other m =>
          refine ⟨Ev.attempt (att + 1) :: tr, ?_, ?_, ?_⟩
          · simp [clickGo, hoa, hrec, hlast]
          · simp [ha]; omega
          · simp [hs]

/-- When the underlying action fails on every remaining attempt, the click
loop makes all remaining attempts, takes exactly one screenshot on the last
attempt (none when no attempt remains), and returns False. -/
theorem clickGo_failure (o : Oracle) (sel : String) (N : Nat) :
    ∀ rem att, att + rem = N →
      (∀ i, att ≤ i → i < N → o i ≠ ActOutcome.ok) →
      ∃ tr, clickGo o sel N rem att = Except.ok (false, tr)
        ∧ attemptCount tr = rem
        ∧ screenshotCount tr = (if rem = 0 then 0 else 1) := by
  intro rem
  induction rem with
  | zero => intro att h1 h2; exact ⟨[], rfl, rfl, rfl⟩
  | succ n ih =>
    intro att h1 hfail
    have hne : o att ≠ ActOutcome.ok := hfail att le_rfl (by omega)
    obtain ⟨tr, hrec, ha, hs⟩ := ih (att + 1) (by omega)
      (fun i hi1 hi2 => hfail i (by omega) hi2)
    cases hoa : o att with
    | ok => exact absurd hoa hne
    | raise e =>
      have hiff : (att = N - 1) = (n = 0) := by
        apply propext; omega
      cases e with
      | timeout =>
        refine ⟨Ev.attempt (att + 1) ::
          (if att = N - 1
            then [Ev.screenshot ("click_timeout_" ++ stripSel sel)]
            else []) ++ tr, ?_, ?_, ?_⟩
        · simp [clickGo, hoa, hrec]
        · by_cases hn : n = 0 <;> simp [hiff, hn, ha]
        · by_cases hn : n = 0 <;> simp [hiff, hn, hs]
      | other m =>
        refine ⟨Ev.attempt (att + 1) ::
          (if att = N - 1 then [Ev.screenshot "click_error"] else []) ++ tr,
          ?_, ?_, ?_⟩
        · simp [clickGo, hoa, hrec]
        · by_cases hn : n = 0 <;> simp [hiff, hn, ha]
        · by_cases hn : n = 0 <;> simp [hiff, hn, hs]

/-- When the underlying action first completes at 0-based index j, the
type_text loop returns True with j + 1 - att attempts and no screenshot. -/
theorem typeTextGo_success (o : Oracle) (sel txt : String) (N : Nat) :
    ∀ rem att j, att + rem = N → att ≤ j → j < N → o j = ActOutcome.ok →
      (∀ i, att ≤ i → i < j → o i ≠ ActOutcome.ok) →
      ∃ tr, typeTextGo o sel txt N rem att = Except.ok (true, tr)
        ∧ attemptCount tr = j + 1 - att ∧ screenshotCount tr = 0 := by
  intro rem
  induction rem with
  | zero => intro att j h1 h2 h3 _ _; omega
  | succ n ih =>
    intro att j h1 h2 h3 hok hfail
    rcases Nat.eq_or_lt_of_le h2 with heq | hlt
    · refine ⟨[Ev.attempt (att + 1)], ?_, ?_, ?_⟩
      · simp [typeTextGo, heq ▸ hok]
      · simp; omega
      · simp
    · have hne : o att ≠ ActOutcome.ok := hfail att le_rfl hlt
      have hlast : ¬ att = N - 1 := by omega
      obtain ⟨tr, hrec, ha, hs⟩ := ih (att + 1) j (by omega) hlt h3 hok
        (fun i hi1 hi2 => hfail i (by omega) hi2)
      cases hoa : o att with
      | ok => exact absurd hoa hne
      | raise e =>
        cases e with
        | timeout =>
          refine ⟨Ev.attempt (att + 1) :: tr, ?_, ?_, ?_⟩
          · simp [typeTextGo, hoa, hrec, hlast]
          · simp [ha]; omega
          · simp [hs]
        | other m =>
          refine ⟨Ev.attempt (att + 1) :: tr, ?_, ?_, ?_⟩
          · simp [typeTextGo, hoa, hrec, hlast]
          · simp [ha]; omega
          · simp [hs]

/-- When the underlying action fails on every remaining attempt, the
type_text loop makes all remaining attempts, takes exactly one screenshot
on the last attempt, and returns False. -/
theorem typeTextGo_failure (o : Oracle) (sel txt : String) (N : Nat) :
    ∀ rem att, att + rem = N →
      (∀ i, att ≤ i → i < N → o i ≠ ActOutcome.ok) →
      ∃ tr, typeTextGo o sel txt N rem att = Except.ok (false, tr)
        ∧ attemptCount tr = rem
        ∧ screenshotCount tr = (if rem = 0 then 0 else 1) := by
  intro rem
  induction rem with
  | zero => intro att h1 h2; exact ⟨[], rfl, rfl, rfl⟩
  | succ n ih =>
    intro att h1 hfail
    have hne : o att ≠ ActOutcome.ok := hfail att le_rfl (by omega)
    obtain ⟨tr, hrec, ha, hs⟩ := ih (att + 1) (by omega)
      (fun i hi1 hi2 => hfail i (by omega) hi2)
    cases hoa : o att with
    | ok => exact absurd hoa hne
    | raise e =>
      have hiff : (att = N - 1) = (n = 0) := by
        apply propext; omega
      cases e with
      | timeout =>
        refine ⟨Ev.attempt (att + 1) ::
          (if att = N - 1 then [Ev.screenshot "type_timeout"] else []) ++ tr,
          ?_, ?_, ?_⟩
        · simp [typeTextGo, hoa, hrec]
        · by_cases hn : n = 0 <;> simp [hiff, hn, ha]
        · by_cases hn : n = 0 <;> simp [hiff, hn, hs]
      | other m =>
        refine ⟨Ev.attempt (att + 1) ::
          (if att = N - 1 then [Ev.screenshot "type_error"] else []) ++ tr,
          ?_, ?_, ?_⟩
        · simp [typeTextGo, hoa, hrec]
        · by_cases hn : n = 0 <;> simp [hiff, hn, ha]
        · by_cases hn : n = 0 <;> simp [hiff, hn, hs]

/-- When the underlying read first completes at 0-based index j with text s,
the get_text loop returns s with j + 1 - att attempts and no screenshot. -/
theorem getTextGo_success (t : TextOracle) (sel : String) (N : Nat) :
    ∀ rem att j s, att + rem = N → att ≤ j → j < N →
      t j = TextOutcome.ok s →
      (∀ i, att ≤ i → i < j → ∀ u, t i ≠ TextOutcome.ok u) →
      ∃ tr, getTextGo t sel N rem att = Except.ok (s, tr)
        ∧ attemptCount tr = j + 1 - att ∧ screenshotCount tr = 0 := by
  intro rem
  induction rem with
  | zero => intro att j s h1 h2 h3 _ _; omega
  | succ n ih =>
    intro att j s h1 h2 h3 hok hfail
    rcases Nat.eq_or_lt_of_le h2 with heq | hlt
    · refine ⟨[Ev.attempt (att + 1)], ?_, ?_, ?_⟩
      · simp [getTextGo, heq ▸ hok]
      · simp; omega
      · simp
    · have hne : ∀ u, t att ≠ TextOutcome.ok u := hfail att le_rfl hlt
      have hlast : ¬ att = N - 1 := by omega
      obtain ⟨tr, hrec, ha, hs⟩ := ih (att + 1) j s (by omega) hlt h3 hok
        (fun i hi1 hi2 => hfail i (by omega) hi2)
      cases hoa : t att with
      | ok u => exact absurd hoa (hne u)
      | raise e =>
        cases e with
        | timeout =>
          refine ⟨Ev.attempt (att + 1) :: tr, ?_, ?_, ?_⟩
          · simp [getTextGo, hoa, hrec, hlast]
          · simp [ha]; omega
          · simp [hs]
        | other m =>
          refine ⟨Ev.attempt (att + 1) :: tr, ?_, ?_, ?_⟩
          · simp [getTextGo, hoa, hrec, hlast]
          · simp [ha]; omega
          · simp [hs]

/-- When the underlying read fails on every remaining attempt, the get_text
loop makes all remaining attempts, takes exactly one screenshot on the last
attempt, and returns None. -/
theorem getTextGo_failure (t : TextOracle) (sel : String) (N : Nat) :
    ∀ rem att, att + rem = N →
      (∀ i, att ≤ i → i < N → ∀ u, t i ≠ TextOutcome.ok u) →
      ∃ tr, getTextGo t sel N rem att = Except.ok (none, tr)
        ∧ attemptCount tr = rem
        ∧ screenshotCount tr = (if rem = 0 then 0 else 1) := by
  intro rem
  induction rem with
  | zero => intro att h1 h2; exact ⟨[], rfl, rfl, rfl⟩
  | succ n ih =>
    intro att h1 hfail
    have hne : ∀ u, t att ≠ TextOutcome.ok u := hfail att le_rfl (by omega)
    obtain ⟨tr, hrec, ha, hs⟩ := ih (att + 1) (by omega)
      (fun i hi1 hi2 => hfail i (by omega) hi2)
    cases hoa : t att with
    | ok u => exact absurd hoa (hne u)
    | raise e =>
      have hiff : (att = N - 1) = (n = 0) := by
        apply propext; omega
      cases e with
      | timeout =>
        refine ⟨Ev.attempt (att + 1) ::
          (if att = N - 1 then [Ev.screenshot "get_text_timeout"] else [])
            ++ tr, ?_, ?_, ?_⟩
        · simp [getTextGo, hoa, hrec]
        · by_cases hn : n = 0 <;> simp [hiff, hn, ha]
        · by_cases hn : n = 0 <;> simp [hiff, hn, hs]
      | other m =>
        refine ⟨Ev.attempt (att + 1) ::
          (if att = N - 1 then [Ev.screenshot "get_text_error"] else [])
            ++ tr, ?_, ?_, ?_⟩
        · simp [getTextGo, hoa, hrec]
        · by_cases hn : n = 0 <;> simp [hiff, hn, ha]
        · by_cases hn : n = 0 <;> simp [hiff, hn, hs]

/-- C1 counterexample: with retry bound 0 the loop body of click never runs,
so after all (zero) attempts fail the operation returns failure with zero
attempts and, against the claim, no screenshot is captured. -/
theorem click_retry_zero_no_screenshot :
    click (fun _ => ActOutcome.raise PExc.timeout) "#login-button" 0
      = Except.ok (false, [])
    ∧ screenshotCount (traceOf
        (click (fun _ => ActOutcome.raise PExc.timeout) "#login-button" 0))
      = 0
    ∧ attemptCount (traceOf
        (click (fun _ => ActOutcome.raise PExc.timeout) "#login-button" 0))
      = 0 :=
  ⟨rfl, rfl, rfl⟩

/-- C1 (amended to retry bound N at least 1 for the exhaustion clause): for
click, type_text and get_text with retry bound N, if the underlying action
first succeeds at 0-based attempt index j < N (attempt j + 1), exactly
j + 1 attempts are made, the operation returns success at once (the
extracted text for get_text) and no screenshot is taken; if every attempt
up to N fails and N is at least 1, exactly N attempts are made, exactly one
screenshot is captured, and the operation returns failure (None for
get_text). -/
theorem retry_bounded_attempt_semantics :
    ∀ (o : Oracle) (t : TextOracle) (sel txt : String) (N j : Nat)
      (s : Option String),
      (j < N → o j = ActOutcome.ok → (∀ i, i < j → o i ≠ ActOutcome.ok) →
        resOf (click o sel N) = some true
        ∧ attemptCount (traceOf (click o sel N)) = j + 1
        ∧ screenshotCount (traceOf (click o sel N)) = 0)
    ∧ (1 ≤ N → (∀ i, i < N → o i ≠ ActOutcome.ok) →
        resOf (click o sel N) = some false
        ∧ attemptCount (traceOf (click o sel N)) = N
        ∧ screenshotCount (traceOf (click o sel N)) = 1)
    ∧ (j < N → o j = ActOutcome.ok → (∀ i, i < j → o i ≠ ActOutcome.ok) →
        resOf (type_text o sel txt N) = some true
        ∧ attemptCount (traceOf (type_text o sel txt N)) = j + 1
        ∧ screenshotCount (traceOf (type_text o sel txt N)) = 0)
    ∧ (1 ≤ N → (∀ i, i < N → o i ≠ ActOutcome.ok) →
        resOf (type_text o sel txt N) = some false
        ∧ attemptCount (traceOf (type_text o sel txt N)) = N
        ∧ screenshotCount (traceOf (type_text o sel txt N)) = 1)
    ∧ (j < N → t j = TextOutcome.ok s →
        (∀ i, i < j → ∀ u, t i ≠ TextOutcome.ok u) →
        resOf (get_text t sel N) = some s
        ∧ attemptCount (traceOf (get_text t sel N)) = j + 1
        ∧ screenshotCount (traceOf (get_text t sel N)) = 0)
    ∧ (1 ≤ N → (∀ i, i < N → ∀ u, t i ≠ TextOutcome.ok u) →
        resOf (get_text t sel N) = some none
        ∧ attemptCount (traceOf (get_text t sel N)) = N
        ∧ screenshotCount (traceOf (get_text t sel N)) = 1) := by
  intro o t sel txt N j s
  refine ⟨?_, ?_, ?_, ?_, ?_, ?_⟩
  · intro hj hok hfail
    obtain ⟨tr, heq, ha, hs⟩ := clickGo_success o sel N N 0 j (by omega)
      (Nat.zero_le j) hj hok (fun i _ hi => hfail i hi)
    have hc : click o sel N = Except.ok (true, tr) := heq
    refine ⟨by rw [hc]; rfl, ?_, ?_⟩
    · rw [hc]; show attemptCount tr = j + 1; omega
    · rw [hc]; exact hs
  · intro hN hfail
    obtain ⟨tr, heq, ha, hs⟩ := clickGo_failure o sel N N 0 (by omega)
      (fun i _ hi => hfail i hi)
    have hc : click o sel N = Except.ok (false, tr) := heq
    refine ⟨by rw [hc]; rfl, ?_, ?_⟩
    · rw [hc]; exact ha
    · rw [hc]; show screenshotCount tr = 1
      have hN0 : ¬ N = 0 := by omega
      simp [hN0] at hs
      exact hs
  · intro hj hok hfail
    obtain ⟨tr, heq, ha, hs⟩ := typeTextGo_success o sel txt N N 0 j
      (by omega) (Nat.zero_le j) hj hok (fun i _ hi => hfail i hi)
    have hc : type_text o sel txt N = Except.ok (true, tr) := heq
    refine ⟨by rw [hc]; rfl, ?_, ?_⟩
    · rw [hc]; show attemptCount tr = j + 1; omega
    · rw [hc]; exact hs
  · intro hN hfail
    obtain ⟨tr, heq, ha, hs⟩ := typeTextGo_failure o sel txt N N 0 (by omega)
      (fun i _ hi => hfail i hi)
    have hc : type_text o sel txt N = Except.ok (false, tr) := heq
    refine ⟨by rw [hc]; rfl, ?_, ?_⟩
    · rw [hc]; exact ha
    · rw [hc]; show screenshotCount tr = 1
      have hN0 : ¬ N = 0 := by omega
      simp [hN0] at hs
      exact hs
  · intro hj hok hfail
    obtain ⟨tr, heq, ha, hs⟩ := getTextGo_success t sel N N 0 j s (by omega)
      (Nat.zero_le j) hj hok (fun i _ hi => hfail i hi)
    have hc : get_text t sel N = Except.ok (s, tr) := heq
    refine ⟨by rw [hc]; rfl, ?_, ?_⟩
    · rw [hc]; show attemptCount tr = j + 1; omega
    · rw [hc]; exact hs
  · intro hN hfail
    obtain ⟨tr, heq, ha, hs⟩ := getTextGo_failure t sel N N 0 (by omega)
      (fun i _ hi => hfail i hi)
    have hc : get_text t sel N = Except.ok (none, tr) := heq
    refine ⟨by rw [hc]; rfl, ?_, ?_⟩
    · rw [hc]; exact ha
    · rw [hc]; show screenshotCount tr = 1
      have hN0 : ¬ N = 0 := by omega
      simp [hN0] at hs
      exact hs

/-- C1 witness: click with the wait timing out once then succeeding makes
two of its three allowed attempts with no screenshot, and get_text with the
read failing on all three attempts makes three attempts, one screenshot,
and returns None. -/
theorem retry_bounded_attempt_semantics_witness :
    (resOf (click
        (fun i => if i = 0 then ActOutcome.raise PExc.timeout
          else ActOutcome.ok) "#login-button" 3) = some true
      ∧ attemptCount (traceOf (click
          (fun i => if i = 0 then ActOutcome.raise PExc.timeout
            else ActOutcome.ok) "#login-button" 3)) = 2
      ∧ screenshotCount (traceOf (click
          (fun i => if i = 0 then ActOutcome.raise PExc.timeout
            else ActOutcome.ok) "#login-button" 3)) = 0)
    ∧ (resOf (get_text (fun _ => TextOutcome.raise PExc.timeout)
          ".inventory_item_price" 3) = some none
      ∧ attemptCount (traceOf (get_text
          (fun _ => TextOutcome.raise PExc.timeout)
          ".inventory_item_price" 3)) = 3
      ∧ screenshotCount (traceOf (get_text
          (fun _ => TextOutcome.raise PExc.timeout)
          ".inventory_item_price" 3)) = 1) :=
  ⟨(retry_bounded_attempt_semantics
      (fun i => if i = 0 then ActOutcome.raise PExc.timeout
        else ActOutcome.ok)
      (fun _ => TextOutcome.raise PExc.timeout)
      "#login-button" "x" 3 1 none).1
      (by decide) (by decide) (by decide),
    (retry_bounded_attempt_semantics
      (fun i => if i = 0 then ActOutcome.raise PExc.timeout
        else ActOutcome.ok)
      (fun _ => TextOutcome.raise PExc.timeout)
      ".inventory_item_price" "x" 3 1 none).2.2.2.2.2
      (by decide) (fun i _ u h => TextOutcome.noConfusion h)⟩

/-- C3 counterexample: click with all three attempts failing records three
attempts and no pause at all, while the claim requires a 1-second pause
after each of the first two failed attempts. -/
theorem click_failed_attempts_no_sleep :
    attemptCount (traceOf
      (click (fun _ => ActOutcome.raise PExc.timeout) "#login-button" 3))
      = 3
    ∧ sleepCount (traceOf
        (click (fun _ => ActOutcome.raise PExc.timeout) "#login-button" 3))
      = 0 :=
  ⟨rfl, rfl⟩

/-- C3 (amended): the source inserts no pause anywhere in the retry loops:
for every oracle, selector, text and retry bound, the traces of click,
type_text and get_text contain no sleep event, so a failed attempt is
followed at once by the next attempt. -/
theorem retry_loops_have_no_pause :
    ∀ (o : Oracle) (t : TextOracle) (sel txt : String) (N : Nat),
      sleepCount (traceOf (click o sel N)) = 0
      ∧ sleepCount (traceOf (type_text o sel txt N)) = 0
      ∧ sleepCount (traceOf (get_text t sel N)) = 0 := by
  intro o t sel txt N
  refine ⟨?_, ?_, ?_⟩
  · obtain ⟨b, tr, heq, hs⟩ := clickGo_shape o sel N N 0
    have hc : click o sel N = Except.ok (b, tr) := heq
    rw [hc]; exact hs
  · obtain ⟨b, tr, heq, hs⟩ := typeTextGo_shape o sel txt N N 0
    have hc : type_text o sel txt N = Except.ok (b, tr) := heq
    rw [hc]; exact hs
  · obtain ⟨r, tr, heq, hs⟩ := getTextGo_shape t sel N N 0
    have hc : get_text t sel N = Except.ok (r, tr) := heq
    rw [hc]; exact hs

/-- C2 counterexample: navigate never inspects the goto response status, so
an HTTP 503 response that loads without raising is treated as success:
navigate returns True, not the False the claim requires. -/
theorem navigate_status_503_returns_true :
    resOf (navigate (GotoOutcome.response 503)) = some true
    ∧ resOf (navigate (GotoOutcome.response 503)) ≠ some false
    ∧ screenshotCount (traceOf (navigate (GotoOutcome.response 503))) = 0 :=
  ⟨rfl, fun h => by simp [navigate, resOf] at h, rfl⟩

/-- C2 (amended): navigate does not inspect the HTTP status, so a response
with status 400 or above (for example 503) that loads without a raised
condition is treated as success after exactly one attempt, and the workflow
returns the navigation-failure outcome exactly when navigate reports
failure, which happens only for a raised condition. -/
theorem navigate_ignores_http_status :
    ∀ (s : Nat) (e : PExc) (loginOk : Bool) (price : Option String),
      400 ≤ s →
      resOf (navigate (GotoOutcome.response s)) = some true
      ∧ attemptCount (traceOf (navigate (GotoOutcome.response s))) = 1
      ∧ navigate (GotoOutcome.raise e)
          = Except.ok (false, [Ev.attempt 1, Ev.screenshot "navigation_error"])
      ∧ execute ⟨false, loginOk, price⟩
          = ⟨false, "Failed to navigate to website", []⟩ := by
  intro s e loginOk price hs
  exact ⟨rfl, rfl, rfl, rfl⟩

/-- C2 witness: at status 503 navigate returns True after one attempt, and
the workflow yields the navigation-failure outcome when navigate reports
failure. -/
theorem navigate_ignores_http_status_witness :
    resOf (navigate (GotoOutcome.response 503)) = some true
    ∧ attemptCount (traceOf (navigate (GotoOutcome.response 503))) = 1
    ∧ navigate (GotoOutcome.raise PExc.timeout)
        = Except.ok (false, [Ev.attempt 1, Ev.screenshot "navigation_error"])
    ∧ execute ⟨false, true, none⟩
        = ⟨false, "Failed to navigate to website", []⟩ :=
  navigate_ignores_http_status 503 PExc.timeout true none (by decide)

/-- C5 counterexample: a bad HTTP status is listed by the claim as a failure
cause, but navigate treats it as success: at status 503 no screenshot is
captured and True, not failure, is returned. -/
theorem navigate_bad_status_not_failure :
    navigate (GotoOutcome.response 503) = Except.ok (true, [Ev.attempt 1])
    ∧ screenshotCount (traceOf (navigate (GotoOutcome.response 503))) = 0
    ∧ resOf (navigate (GotoOutcome.response 503)) ≠ some false :=
  ⟨rfl, rfl, fun h => by simp [navigate, resOf] at h⟩

/-- C5 (amended): navigate never retries: for every goto outcome exactly one
underlying load attempt is made and no exception propagates; on a raised
failure cause (network error, timeout) a screenshot is captured and failure
is returned, while a response with a bad status is not treated as a
failure: it yields success and no screenshot. -/
theorem navigate_single_attempt_policy :
    ∀ (g : GotoOutcome),
      attemptCount (traceOf (navigate g)) = 1
      ∧ raisesToCaller (navigate g) = false
      ∧ (∀ e, g = GotoOutcome.raise e →
          resOf (navigate g) = some false
          ∧ screenshotCount (traceOf (navigate g)) = 1)
      ∧ (∀ st, g = GotoOutcome.response st →
          resOf (navigate g) = some true
          ∧ screenshotCount (traceOf (navigate g)) = 0) := by
  intro g
  cases g with
  | response st =>
    exact ⟨rfl, rfl, fun e h => GotoOutcome.noConfusion h,
      fun st h => ⟨rfl, rfl⟩⟩
  | raise e =>
    exact ⟨rfl, rfl, fun e h => ⟨rfl, rfl⟩,
      fun st h => GotoOutcome.noConfusion h⟩

/-- C5 witness: for a timed-out load, one attempt is made, the exception is
contained, failure is returned and one screenshot is captured. -/
theorem navigate_single_attempt_policy_witness :
    attemptCount (traceOf (navigate (GotoOutcome.raise PExc.timeout))) = 1
    ∧ resOf (navigate (GotoOutcome.raise PExc.timeout)) = some false
    ∧ screenshotCount (traceOf (navigate (GotoOutcome.raise PExc.timeout)))
        = 1 :=
  ⟨(navigate_single_attempt_policy (GotoOutcome.raise PExc.timeout)).1,
    ((navigate_single_attempt_policy (GotoOutcome.raise PExc.timeout)).2.2.1
      PExc.timeout rfl).1,
    ((navigate_single_attempt_policy (GotoOutcome.raise PExc.timeout)).2.2.1
      PExc.timeout rfl).2⟩

/-- C8 counterexample: wait_for_selector has a handler only for the timeout
exception, so a non-timeout exception raised by the underlying wait
propagates past the driver boundary to the caller. -/
theorem wait_for_selector_propagates_nontimeout :
    wait_for_selector (ActOutcome.raise (PExc.other "Error: invalid"))
      = Except.error (PExc.other "Error: invalid")
    ∧ raisesToCaller
        (wait_for_selector (ActOutcome.raise (PExc.other "Error: invalid")))
      = true :=
  ⟨rfl, rfl⟩

/-- C8 (amended): navigate, click, type_text and get_text catch every raised
condition and never let an exception escape to their caller; among the
driver operations only wait_for_selector is an exception: it contains the
timeout condition but lets any other raised condition propagate. -/
theorem driver_exception_containment :
    ∀ (g : GotoOutcome) (o : Oracle) (t : TextOracle) (sel txt m : String)
      (N : Nat),
      raisesToCaller (navigate g) = false
      ∧ raisesToCaller (click o sel N) = false
      ∧ raisesToCaller (type_text o sel txt N) = false
      ∧ raisesToCaller (get_text t sel N) = false
      ∧ raisesToCaller (wait_for_selector ActOutcome.ok) = false
      ∧ raisesToCaller (wait_for_selector (ActOutcome.raise PExc.timeout))
          = false
      ∧ raisesToCaller (wait_for_selector (ActOutcome.raise (PExc.other m)))
          = true := by
  intro g o t sel txt m N
  refine ⟨?_, ?_, ?_, ?_, rfl, rfl, rfl⟩
  · cases g <;> rfl
  · obtain ⟨b, tr, heq, _⟩ := clickGo_shape o sel N N 0
    have hc : click o sel N = Except.ok (b, tr) := heq
    rw [hc]; rfl
  · obtain ⟨b, tr, heq, _⟩ := typeTextGo_shape o sel txt N N 0
    have hc : type_text o sel txt N = Except.ok (b, tr) := heq
    rw [hc]; rfl
  · obtain ⟨r, tr, heq, _⟩ := getTextGo_shape t sel N N 0
    have hc : get_text t sel N = Except.ok (r, tr) := heq
    rw [hc]; rfl

/-- Mapping the sanitization of the spec over characters it allows changes
nothing. -/
theorem map_specSanitizeChar_of_allowed :
    ∀ l : List Char, (∀ c ∈ l, specAllowedChar c = true) →
      l.map specSanitizeChar = l := by
  intro l
  induction l with
  | nil => intro _; rfl
  | cons a t ih =>
    intro hl
    have ha : specAllowedChar a = true := hl a (List.mem_cons_self a t)
    have ht := ih (fun c hc => hl c (List.mem_cons_of_mem a hc))
    simp [specSanitizeChar, ha, ht]

/-- C6 counterexample: _take_screenshot interpolates the label verbatim, so
a label holding a space and a slash keeps them in the filename, while the
sanitization the claim describes would replace both with underscores. -/
theorem screenshot_name_unsanitized :
    screenshotFilename "click a/b" "20250101_000000"
      = "screenshot_click a/b_20250101_000000.png"
    ∧ specScreenshotFilename "click a/b" "20250101_000000"
      = "screenshot_click_a_b_20250101_000000.png"
    ∧ screenshotFilename "click a/b" "20250101_000000"
      ≠ specScreenshotFilename "click a/b" "20250101_000000" := by
  refine ⟨rfl, by decide, by decide⟩

/-- C6 (amended): the source performs no sanitization and no truncation: the
label is embedded verbatim as screenshot_<label>_<timestamp>.png, and this
coincides with the sanitize-and-truncate pattern of the claim exactly when
the label already consists of characters in A-Za-z0-9_.- and has at most
120 characters. -/
theorem screenshot_name_verbatim_label :
    ∀ (name ts : String),
      (∀ c ∈ name.data, specAllowedChar c = true) →
      name.data.length ≤ 120 →
      screenshotFilename name ts = specScreenshotFilename name ts := by
  intro name ts hkeep hlen
  obtain ⟨l⟩ := name
  simp [screenshotFilename, specScreenshotFilename,
    map_specSanitizeChar_of_allowed l hkeep, List.take_of_length_le hlen]

/-- C6 witness: a label already inside the allowed character set and under
the length cap produces the same filename under both definitions. -/
theorem screenshot_name_verbatim_label_witness :
    (∀ c ∈ ("type_error" : String).data, specAllowedChar c = true)
    ∧ ("type_error" : String).data.length ≤ 120
    ∧ screenshotFilename "type_error" "20250101_000000"
        = specScreenshotFilename "type_error" "20250101_000000" :=
  ⟨by decide, by decide,
    screenshot_name_verbatim_label "type_error" "20250101_000000"
      (by decide) (by decide)⟩

/-- C7 counterexample: when the first item matching the target name has no
price element, the scan does not stop there: with a second matching item
that has a price, the source returns that later price, while the claim
requires the first match to win and a matching item with a missing price
sub-field to be reported as not-found (None). -/
theorem first_match_unpriced_skipped :
    getProductPrice
      [⟨some (some "Sauce Labs Backpack"), none⟩,
        ⟨some (some "Sauce Labs Backpack"), some (some "$29.99")⟩]
      "Sauce Labs Backpack" = some "$29.99"
    ∧ specFirstMatchLookup
        [⟨some (some "Sauce Labs Backpack"), none⟩,
          ⟨some (some "Sauce Labs Backpack"), some (some "$29.99")⟩]
        "Sauce Labs Backpack" = none
    ∧ getProductPrice
        [⟨some (some "Sauce Labs Backpack"), none⟩,
          ⟨some (some "Sauce Labs Backpack"), some (some "$29.99")⟩]
        "Sauce Labs Backpack" ≠ none := by
  refine ⟨by decide, by decide, by decide⟩

/-- C7 (amended): the lookup returns the price text of the first item whose
name text equals the target and whose price element is present; an empty
collection, a collection with no matching name, and matching items that all
lack a price element are reported identically as not-found (None). -/
theorem product_price_first_priced_match :
    ∀ (items : List Item) (pn : String),
      getProductPrice items pn = firstPricedMatch items pn := by
  intro items pn
  induction items with
  | nil => rfl
  | cons item rest ih =>
    cases hn : item.nameElem with
    | none => simp [getProductPrice, firstPricedMatch, List.find?, hn, ih]
    | some nameText =>
      by_cases hname : nameText = some pn
      · cases hp : item.priceElem with
        | some priceText =>
          simp [getProductPrice, firstPricedMatch, List.find?, hn, hname, hp]
        | none =>
          simp [getProductPrice, firstPricedMatch, List.find?, hn, hname,
            hp, ih]
      · simp [getProductPrice, firstPricedMatch, List.find?, hn, hname, ih]

/-- C9 counterexample: when browser launch raises inside __enter__, the
with-statement never invokes __exit__, so the already-started engine handle
is never stopped: the session trace records the start and no release. -/
theorem partial_entry_leaks_engine :
    withDriver ⟨true, false, true, true⟩ ⟨true, true, true⟩ = [ResEv.started]
    ∧ ResEv.started ∈ withDriver ⟨true, false, true, true⟩ ⟨true, true, true⟩
    ∧ ResEv.engineStopped
        ∉ withDriver ⟨true, false, true, true⟩ ⟨true, true, true⟩ := by
  refine ⟨by decide, by decide, by decide⟩

/-- C9 (amended): when entry completes and no close raises, exit releases
the context, then the browser, then the engine handle, in that order; but
the release is not unconditional: when entry raises partway, none of the
already-acquired resources are released (__exit__ is never invoked), and
when the context close raises, the later releases are skipped. -/
theorem driver_lifecycle_release_paths :
    ∀ (een : EnterEnv) (eex : ExitEnv),
      ((enterDriver een).2 = true → eex.contextCloseOk = true →
        eex.browserCloseOk = true → eex.stopOk = true →
        withDriver een eex
          = (enterDriver een).1
            ++ [ResEv.contextClosed, ResEv.browserClosed,
                ResEv.engineStopped])
      ∧ ((enterDriver een).2 = false →
        withDriver een eex = (enterDriver een).1)
      ∧ ((enterDriver een).2 = true → eex.contextCloseOk = false →
        withDriver een eex = (enterDriver een).1) := by
  intro een eex
  obtain ⟨a, b, c, d⟩ := een
  obtain ⟨x, y, z⟩ := eex
  cases a <;> cases b <;> cases c <;> cases d <;> cases x <;> cases y
    <;> cases z <;> exact ⟨by decide, by decide, by decide⟩

/-- C9 witness: a fully successful session acquires everything and then
releases context, browser and engine in order. -/
theorem driver_lifecycle_release_paths_witness :
    withDriver ⟨true, true, true, true⟩ ⟨true, true, true⟩
      = [ResEv.started, ResEv.launched, ResEv.contextOpened, ResEv.pageOpened,
          ResEv.contextClosed, ResEv.browserClosed, ResEv.engineStopped] :=
  (driver_lifecycle_release_paths ⟨true, true, true, true⟩
    ⟨true, true, true⟩).1 (by decide) rfl rfl rfl

/-- C4: every outcome of SauceDemoTask.execute satisfies the invariant:
success implies the data carries the promised product and price entries
with non-empty values, and failure implies the data is empty and the
message is non-empty. -/
theorem workflow_outcome_invariant :
    ∀ env : ExecEnv,
      ((execute env).success = true →
        ∃ pr, (execute env).data
            = [("product", "Sauce Labs Backpack"), ("price", pr)]
          ∧ "Sauce Labs Backpack" ≠ "" ∧ pr ≠ "")
      ∧ ((execute env).success = false →
        (execute env).data = [] ∧ (execute env).message ≠ "") := by
  intro env
  obtain ⟨nav, login, price⟩ := env
  cases nav with
  | false =>
    exact ⟨fun h => absurd h (by simp [execute]),
      fun _ => ⟨rfl, by
        show ("Failed to navigate to website" : String) ≠ ""
        decide⟩⟩
  | true =>
    cases login with
    | false =>
      exact ⟨fun h => absurd h (by simp [execute]),
        fun _ => ⟨rfl, by
          show ("Login failed" : String) ≠ ""
          decide⟩⟩
    | true =>
      cases price with
      | none =>
        exact ⟨fun h => absurd h (by simp [execute, pyTruthy]),
          fun _ => ⟨rfl, by decide⟩⟩
      | some s =>
        by_cases hs : s = ""
        · subst hs
          exact ⟨fun h => absurd h (by simp [execute, pyTruthy]),
            fun _ => ⟨rfl, by decide⟩⟩
        · have hp : pyTruthy (some s) = true := by simp [pyTruthy, hs]
          refine ⟨fun _ => ⟨s, ?_, by decide, hs⟩, fun h => ?_⟩
          · simp [execute, hp]
          · simp [execute, hp] at h

/-- C4 witness: a run reaching a non-empty price yields a success outcome
with both promised entries non-empty, and a run with failed navigation
yields a failure outcome with empty data and a non-empty message. -/
theorem workflow_outcome_invariant_witness :
    (∃ pr, (execute ⟨true, true, some "$29.99"⟩).data
        = [("product", "Sauce Labs Backpack"), ("price", pr)]
      ∧ "Sauce Labs Backpack" ≠ "" ∧ pr ≠ "")
    ∧ ((execute ⟨false, true, none⟩).data = []
      ∧ (execute ⟨false, true, none⟩).message ≠ "") :=
  ⟨(workflow_outcome_invariant ⟨true, true, some "$29.99"⟩).1 (by decide),
    (workflow_outcome_invariant ⟨false, true, none⟩).2 (by decide)⟩

/-- C10: when the matching item has a price element whose extracted text is
the empty string, _get_product_price returns that empty string, the bare
truthiness test on the price fails, and execute reports failure with the
product-not-found message and empty data. -/
theorem empty_price_text_reports_failure :
    ∀ (it : Item) (rest : List Item),
      it.nameElem = some (some "Sauce Labs Backpack") →
      it.priceElem = some (some "") →
      getProductPrice (it :: rest) "Sauce Labs Backpack" = some ""
      ∧ execute ⟨true, true,
          getProductPrice (it :: rest) "Sauce Labs Backpack"⟩
        = ⟨false, "Failed to find product: Sauce Labs Backpack", []⟩ := by
  intro it rest hn hp
  have hg : getProductPrice (it :: rest) "Sauce Labs Backpack" = some "" := by
    simp [getProductPrice, hn, hp]
  refine ⟨hg, ?_⟩
  rw [hg]
  decide

/-- C10 witness: a single item matching the target name with an empty price
text makes the workflow report the product-not-found failure. -/
theorem empty_price_text_reports_failure_witness :
    getProductPrice [⟨some (some "Sauce Labs Backpack"), some (some "")⟩]
        "Sauce Labs Backpack" = some ""
    ∧ execute ⟨true, true,
        getProductPrice [⟨some (some "Sauce Labs Backpack"), some (some "")⟩]
          "Sauce Labs Backpack"⟩
      = ⟨false, "Failed to find product: Sauce Labs Backpack", []⟩ :=
  empty_price_text_reports_failure
    ⟨some (some "Sauce Labs Backpack"), some (some "")⟩ [] rfl rfl

end SauceDemo
